import Mathlib

/-!
Verification of the real-time quiz match engine
(`src/game/consumers.py`, `src/api/models.py`).

Python dictionaries are modelled as association lists with insertion-order
semantics (`dictSet` replaces in place, else appends); Python floats that are
only compared against integer thresholds are modelled as `ℚ`; Python ints are
`ℤ`/`ℕ`; `None`-able values are `Option`.
-/

namespace Quiz

/-- Python dict assignment `d[k] = v`: replace the value in place when the key
is present, otherwise append the new binding. -/
def dictSet {α : Type} (k : ℕ) (v : α) : List (ℕ × α) → List (ℕ × α)
  | [] => [(k, v)]
  | (k', v') :: rest => if k' = k then (k, v) :: rest else (k', v') :: dictSet k v rest

theorem lookup_dictSet_self {α : Type} (k : ℕ) (v : α) (l : List (ℕ × α)) :
    (dictSet k v l).lookup k = some v := by
  induction l with
  | nil => simp [dictSet, List.lookup]
  | cons hd tl ih =>
    obtain ⟨k', v'⟩ := hd
    by_cases h : k' = k
    · simp [dictSet, h, List.lookup]
    · simp only [dictSet, if_neg h, List.lookup]
      have : (k == k') = false := by
        simp [beq_iff_eq]
        exact fun he => h he.symm
      simp [this, ih]

/-- `Round.calculate_score` from `src/api/models.py`: score from answer time
and correctness. -/
def calculate_score (time_taken : ℚ) (is_correct : Bool) : ℤ :=
  if !is_correct then 0
  else if time_taken ≤ 3 then 100
  else if time_taken ≤ 7 then 70
  else 40

/-- C1 counterexample: a correct answer reported with latency 20 (over the
claimed 15-second cutoff) scores 40, not the 0 the claim requires. -/
theorem C1_counterexample :
    calculate_score 20 true = 40 ∧ calculate_score 20 true ≠ 0 := by
  constructor <;> norm_num [calculate_score]

/-- C1 amended: the scoring function has no 15-second cutoff. A correct answer
scores 100 when latency ≤ 3, 70 when 3 < latency ≤ 7, and 40 for any larger
latency (including latencies over 15); an incorrect answer scores 0. -/
theorem C1_score_policy (t : ℚ) (c : Bool) :
    (c = true → ((t ≤ 3 → calculate_score t c = 100) ∧
      (3 < t → t ≤ 7 → calculate_score t c = 70) ∧
      (7 < t → calculate_score t c = 40))) ∧
    (c = false → calculate_score t c = 0) := by
  constructor
  · rintro rfl
    refine ⟨fun h3 => ?_, fun h3 h7 => ?_, fun h7 => ?_⟩
    · simp [calculate_score, h3]
    · simp [calculate_score, not_le.mpr h3, h7]
    · have h3 : 3 < t := lt_trans (by norm_num) h7
      simp [calculate_score, not_le.mpr h3, not_le.mpr h7]
  · rintro rfl
    simp [calculate_score]

/-- Witness for C1_score_policy at latency 2, correct. -/
theorem C1_score_policy_witness : calculate_score 2 true = 100 :=
  ((C1_score_policy 2 true).1 rfl).1 (by norm_num)

/-- One stored answer in `state['round_answers'][round][player]`:
`{'answer': ..., 'time': ...}`. -/
structure AnswerEntry where
  answer : Option String
  time : ℚ
deriving DecidableEq, Repr, Inhabited

/-- The in-memory per-match state `GameConsumer.game_states[match_id]`
(fields used by the round/answer/emoji logic). -/
structure GameState where
  current_round : ℕ := 0
  round_answers : List (ℕ × List (ℕ × AnswerEntry)) := []
  emojis_sent : List (ℕ × ℕ) := []
deriving DecidableEq, Repr, Inhabited

/-- The inbound answer frame: `data.get('answer')` and `data.get('time', 15)`
(both keys may be absent). -/
structure AnswerData where
  answer : Option String := none
  time : Option ℚ := none
deriving DecidableEq, Repr, Inhabited

/-- The answers recorded for round `r` (Python `state['round_answers'].get(r, {})`
view used below). -/
def roundAnswersAt (s : GameState) (r : ℕ) : List (ℕ × AnswerEntry) :=
  (s.round_answers.lookup r).getD []

/-- `GameConsumer.handle_answer` from `src/game/consumers.py`, as a pure step:
returns the new state, whether `answer_submitted` is broadcast, and whether
`end_round` is invoked (both players answered). A duplicate answer from the
same player in the current round is dropped (state unchanged, no events). -/
def handle_answer (s : GameState) (userId : ℕ) (d : AnswerData) :
    GameState × Bool × Bool :=
  let time_taken := d.time.getD 15
  let cur := s.current_round
  let curAnswers := roundAnswersAt s cur
  if (curAnswers.lookup userId).isSome then (s, false, false)
  else
    let curAnswers' := dictSet userId { answer := d.answer, time := time_taken } curAnswers
    ({ s with round_answers := dictSet cur curAnswers' s.round_answers },
      true, decide (2 ≤ curAnswers'.length))

/-- Arrival-time-annotated form of `handle_answer`: `elapsed` is the wall
clock since the round started when the frame arrives. The source reads no
clock inside `handle_answer`, so the result ignores `elapsed`; the parameter
only lets timing claims (deadline, latency clamping) be stated. -/
def handle_answer_at (s : GameState) (userId : ℕ) (d : AnswerData)
    (_elapsed : ℚ) : GameState × Bool × Bool :=
  handle_answer s userId d

/-- The latency stored for player `u` in round `r`, when an answer is stored. -/
def recordedLatency (s : GameState) (r u : ℕ) : Option ℚ :=
  ((roundAnswersAt s r).lookup u).map (fun e => e.time)

/-- The latency the spec prescribes for scoring: the minimum of the
client-reported latency and the elapsed wall clock since the round started.
Modelled from the spec's words for comparison with the source. -/
def spec_scoring_latency (clientReported elapsed : ℚ) : ℚ :=
  min clientReported elapsed

/-- C2 counterexample: a client reporting latency 0 on an answer arriving 12 s
after the round started has latency 0 recorded — the raw client value — not
the 12 the claim requires. -/
theorem C2_counterexample :
    recordedLatency (handle_answer_at { current_round := 1 } 7
      { answer := some "A", time := some 0 } 12).1 1 7 = some 0 ∧
    some (12 : ℚ) ≠ some (0 : ℚ) := by
  constructor
  · rfl
  · simp

/-- The per-player slice of `GameConsumer.calculate_round_result`: the values
written to the Round row (`playerN_answer`, `playerN_time`, `playerN_score`)
and broadcast in the `round_end` result, for one player. -/
structure PlayerRoundResult where
  answer : Option String
  time : ℚ
  score : ℤ
  correct : Bool
deriving DecidableEq, Repr

/-- One player's processing inside `GameConsumer.calculate_round_result` from
`src/game/consumers.py`: `answers.get(pid, {})`, then `.get('answer')` (None
when missing), `.get('time', 15)`, correctness against the round's correct
option, and `Round.calculate_score`. -/
def processPlayer (correct_answer : String) (answers : List (ℕ × AnswerEntry))
    (pid : ℕ) : PlayerRoundResult :=
  let pdata := answers.lookup pid
  let pAnswer := pdata.bind (fun entry => entry.answer)
  let pTime := (pdata.map (fun entry => entry.time)).getD 15
  let pCorrect := pAnswer == some correct_answer
  { answer := pAnswer, time := pTime
    score := calculate_score pTime pCorrect, correct := pCorrect }

/-- `GameConsumer.calculate_round_result`: both players processed and the
match totals incremented. -/
structure RoundResult where
  correct_answer : String
  p1 : PlayerRoundResult
  p2 : PlayerRoundResult
  newScore1 : ℤ
  newScore2 : ℤ
deriving DecidableEq, Repr

/-- `GameConsumer.calculate_round_result` from `src/game/consumers.py` on the
collected answers of one round. -/
def calculate_round_result (correct_answer : String)
    (answers : List (ℕ × AnswerEntry)) (p1id p2id : ℕ)
    (score1 score2 : ℤ) : RoundResult :=
  let r1 := processPlayer correct_answer answers p1id
  let r2 := processPlayer correct_answer answers p2id
  { correct_answer := correct_answer, p1 := r1, p2 := r2
    newScore1 := score1 + r1.score, newScore2 := score2 + r2.score }

/-- C2 amended: the latency used and recorded is exactly the client-reported
value (15 when the frame omits it), independent of the elapsed wall-clock time
at arrival; no minimum with server time is taken. The Round row written by
`calculate_round_result` records that same raw client value. -/
theorem C2_latency_is_client_reported (s : GameState) (u : ℕ) (a : Option String)
    (t : ℚ) (e e' : ℚ)
    (h : ((roundAnswersAt s s.current_round).lookup u) = none) :
    recordedLatency (handle_answer_at s u { answer := a, time := some t } e).1
      s.current_round u = some t ∧
    recordedLatency (handle_answer_at s u { answer := a, time := none } e).1
      s.current_round u = some 15 ∧
    (∀ ca p2id sc1 sc2, (calculate_round_result ca
        (roundAnswersAt (handle_answer_at s u { answer := a, time := some t } e).1
          s.current_round) u p2id sc1 sc2).p1.time = t) ∧
    handle_answer_at s u { answer := a, time := some t } e =
      handle_answer_at s u { answer := a, time := some t } e' := by
  have h' : List.lookup u ((s.round_answers.lookup s.current_round).getD []) = none := by
    simpa [roundAnswersAt] using h
  refine ⟨?_, ?_, fun ca p2id sc1 sc2 => ?_, rfl⟩ <;>
    simp [handle_answer_at, handle_answer, recordedLatency, roundAnswersAt, h',
      lookup_dictSet_self, calculate_round_result, processPlayer]

/-- Witness for C2_latency_is_client_reported on a fresh round-1 state. -/
theorem C2_latency_witness :
    recordedLatency (handle_answer_at { current_round := 1 } 7
      { answer := some "B", time := some 4 } 9).1 1 7 = some 4 :=
  (C2_latency_is_client_reported { current_round := 1 } 7 (some "B") 4 9 9 rfl).1

/-- `GameConsumer.round_timeout` from `src/game/consumers.py`, after the 15 s
sleep: whether it invokes `end_round`. `none` models a missing
`game_states` entry. -/
def round_timeout_fires : Option GameState → ℕ → Bool
  | none, _ => false
  | some st, round_number =>
    if st.current_round ≠ round_number then false
    else
      match st.round_answers.lookup round_number with
      | none => false
      | some m => decide (m.length < 2)

/-- A round-1 state in which exactly one player (id 7) has answered. -/
def oneAnswerState : GameState :=
  { current_round := 1
    round_answers := [(1, [(7, { answer := some "A", time := 2 })])] }

/-- C3: when the 15 s timer expires on a current round in which zero answers
were submitted, `round_timeout` does NOT end the round (the round number is
absent from `round_answers`, so the guard fails); with exactly one submitted
answer it does. The claim requires the round to end in both cases. -/
theorem C3_timeout_zero_answers :
    round_timeout_fires (some { current_round := 1 }) 1 = false ∧
    round_timeout_fires (some oneAnswerState) 1 = true := by
  constructor <;> rfl

/-- C4 counterexample: an answer arriving 16 s after the round started — past
the 15 s deadline, after the timer has already ended the round — is still
recorded with its reported latency and still broadcast (it even triggers
`end_round` a second time); the claim requires it to be silently dropped. -/
theorem C4_counterexample :
    recordedLatency (handle_answer_at oneAnswerState 5
      { answer := some "B", time := some 16 } 16).1 1 5 = some 16 ∧
    (handle_answer_at oneAnswerState 5
      { answer := some "B", time := some 16 } 16).2.1 = true ∧
    (handle_answer_at oneAnswerState 5
      { answer := some "B", time := some 16 } 16).2.2 = true := by
  refine ⟨rfl, rfl, rfl⟩

/-- C4 amended: `handle_answer` drops exactly the duplicate submissions — a
player already recorded in the current round leaves the state unchanged with
no events — and records any first submission from a player, regardless of the
arrival time (there is no deadline check, and frames carry no round
designation: every submission applies to the current round). -/
theorem C4_answer_acceptance (s : GameState) (u : ℕ) (d : AnswerData) (e e' : ℚ) :
    (((roundAnswersAt s s.current_round).lookup u).isSome = true →
      handle_answer_at s u d e = (s, false, false)) ∧
    (((roundAnswersAt s s.current_round).lookup u) = none →
      ((roundAnswersAt (handle_answer_at s u d e).1 s.current_round).lookup u) =
        some { answer := d.answer, time := d.time.getD 15 }) ∧
    handle_answer_at s u d e = handle_answer_at s u d e' := by
  refine ⟨fun hdup => ?_, fun hnew => ?_, rfl⟩
  · simp [handle_answer_at, handle_answer, roundAnswersAt] at hdup ⊢
    simp [hdup]
  · have h' : List.lookup u ((s.round_answers.lookup s.current_round).getD []) = none := by
      simpa [roundAnswersAt] using hnew
    simp [handle_answer_at, handle_answer, roundAnswersAt, h', lookup_dictSet_self]

/-- Witness for C4_answer_acceptance: a duplicate answer from player 7 is
dropped. -/
theorem C4_answer_acceptance_witness :
    handle_answer_at oneAnswerState 7 { answer := some "C", time := some 1 } 3 =
      (oneAnswerState, false, false) :=
  (C4_answer_acceptance oneAnswerState 7 { answer := some "C", time := some 1 } 3 3).1 rfl

/-- Outcome of `MatchmakingConsumer.connect` for the caller: paired with a
waiting opponent, or parked in the waiting queue. The source has no error
outcome. -/
inductive MMOutcome where
  | matchFound (opponentId : ℕ)
  | waiting
deriving DecidableEq, Repr

/-- The queue logic of `MatchmakingConsumer.connect` from
`src/game/consumers.py`: the waiting queue is the insertion-ordered dict
`waiting_players` (player id → channel). If the queue is non-empty and its
first entry is a different player, that entry is removed and the two are
paired; otherwise (empty queue, or own id at the head) the caller's id is
assigned its channel in the dict — overwriting any existing entry — and the
caller waits. -/
def mm_connect (queue : List (ℕ × ℕ)) (userId channel : ℕ) :
    MMOutcome × List (ℕ × ℕ) :=
  match queue with
  | [] => (.waiting, dictSet userId channel [])
  | (oppId, oppChan) :: rest =>
    if oppId ≠ userId then (.matchFound oppId, rest)
    else (.waiting, dictSet userId channel ((oppId, oppChan) :: rest))

/-- C5 counterexample: player 7, already the sole entry of the waiting queue,
calls connect again: the call does not fail — the player is parked again
(the queue entry is overwritten with the new channel). -/
theorem C5_counterexample :
    mm_connect [(7, 100)] 7 101 = (MMOutcome.waiting, [(7, 101)]) := by
  rfl

/-- C5 amended: `connect` performs no AlreadyQueued / AlreadyInGame check. A
caller whose id is at the head of the queue is parked again, its entry
replaced with the new channel; a caller in a live match is not distinguished
(the in-game flag is never consulted). -/
theorem C5_requeue_replaces (q : List (ℕ × ℕ)) (u c oc : ℕ)
    (h : q.head? = some (u, oc)) :
    mm_connect q u c = (MMOutcome.waiting, dictSet u c q) := by
  match q with
  | [] => simp at h
  | (k, v) :: rest =>
    simp only [List.head?_cons, Option.some.injEq, Prod.mk.injEq] at h
    obtain ⟨rfl, rfl⟩ := h
    simp [mm_connect]

/-- Witness for C5_requeue_replaces: player 3 alone in the queue reconnects. -/
theorem C5_requeue_witness :
    mm_connect [(3, 50)] 3 51 = (MMOutcome.waiting, dictSet 3 51 [(3, 50)]) :=
  C5_requeue_replaces [(3, 50)] 3 51 50 rfl

/-- A Round row created at pairing time. -/
structure CreatedRound where
  round_number : ℕ
  question : ℕ
deriving DecidableEq, Repr

/-- The Match row and its Round rows as created at pairing time. -/
structure CreatedMatch where
  player1 : ℕ
  player2 : ℕ
  status : String
  total_rounds : ℕ
  rounds : List CreatedRound
deriving DecidableEq, Repr

/-- `MatchmakingConsumer.create_match` from `src/game/consumers.py`:
`shuffled` is the pool of question ids in the random order produced by
`order_by('?')`; the slice `[:5]` takes at most five, and one Round row is
created per question taken, numbered from 1. `total_rounds` is never set and
keeps its model default of 5. -/
def create_match (shuffled : List ℕ) (opponentId userId : ℕ) : CreatedMatch :=
  let questions := shuffled.take 5
  { player1 := opponentId
    player2 := userId
    status := "in_progress"
    total_rounds := 5
    rounds := questions.enum.map (fun p => { round_number := p.1 + 1, question := p.2 }) }

/-- C6 counterexample: with only three questions available, pairing does not
fail — the match is still created, in progress, with three Round rows while
`total_rounds` remains 5. -/
theorem C6_counterexample :
    (create_match [10, 20, 30] 1 2).rounds.length = 3 ∧
    (create_match [10, 20, 30] 1 2).total_rounds = 5 ∧
    (create_match [10, 20, 30] 1 2).status = "in_progress" := by
  refine ⟨rfl, rfl, rfl⟩

/-- C6 amended: `create_match` never fails and never rolls back: for any
question pool it creates an in-progress match with min(pool size, 5) Round
rows and `total_rounds` = 5; no InsufficientQuestions error or
`pairing_failed` notification exists. -/
theorem C6_match_created_regardless (shuffled : List ℕ) (a b : ℕ) :
    (create_match shuffled a b).rounds.length = min shuffled.length 5 ∧
    (create_match shuffled a b).total_rounds = 5 ∧
    (create_match shuffled a b).status = "in_progress" := by
  refine ⟨?_, rfl, rfl⟩
  simp [create_match, Nat.min_comm]

/-- The game-relevant fields of the `User` row from `src/api/models.py`. -/
structure UserRec where
  rating : ℤ
  level : ℤ
  wins : ℕ
  losses : ℕ
deriving DecidableEq, Repr, Inhabited

/-- `User.update_rating` from `src/api/models.py`: +20 rating and +1 win on a
win; rating floored at 0 after −15 and +1 loss on a loss; then
`level = rating // 200 + 1` (Python floor division is `Int.fdiv`). -/
def update_rating (u : UserRec) (won : Bool) : UserRec :=
  let u1 :=
    if won then { u with rating := u.rating + 20, wins := u.wins + 1 }
    else { u with rating := max 0 (u.rating - 15), losses := u.losses + 1 }
  { u1 with level := Int.fdiv u1.rating 200 + 1 }

/-- One `MatchHistory` row as created in `GameConsumer.finalize_match`. -/
structure HistoryRow where
  user : ℕ
  opponent : ℕ
  user_score : ℤ
  opponent_score : ℤ
  is_winner : Bool
  rating_change : ℤ
deriving DecidableEq, Repr, Inhabited

/-- The durable outcome of `GameConsumer.finalize_match`. -/
structure FinalizeResult where
  winnerId : Option ℕ
  player1 : UserRec
  player2 : UserRec
  status : String
  history : List HistoryRow
deriving DecidableEq, Repr

/-- `GameConsumer.finalize_match` from `src/game/consumers.py` (the outcome,
rating-update and history portion; the rounds review and the in-game flag
clearing carry no claim). `p1_won` mirrors the Python `True`/`False`/`None`;
the `history` list holds the two `MatchHistory.objects.create` calls in
program order (player1's row first). -/
def finalize_match (p1id p2id : ℕ) (score1 score2 : ℤ)
    (u1 u2 : UserRec) : FinalizeResult :=
  let p1_won : Option Bool :=
    if score1 > score2 then some true
    else if score2 > score1 then some false
    else none
  let winnerId : Option ℕ :=
    match p1_won with
    | some true => some p1id
    | some false => some p2id
    | none => none
  let u1' := match p1_won with
    | none => u1
    | some w => update_rating u1 w
  let u2' := match p1_won with
    | none => u2
    | some w => update_rating u2 (!w)
  let h1 : HistoryRow :=
    { user := p1id
      opponent := p2id
      user_score := score1
      opponent_score := score2
      is_winner := p1_won.getD false
      rating_change := match p1_won with
        | some true => 20
        | some false => -15
        | none => 0 }
  let h2 : HistoryRow :=
    { user := p2id
      opponent := p1id
      user_score := score2
      opponent_score := score1
      is_winner := (p1_won.map (fun b => !b)).getD false
      rating_change := match p1_won with
        | some true => -15
        | some false => 20
        | none => 0 }
  { winnerId := winnerId, player1 := u1', player2 := u2'
    status := "completed", history := [h1, h2] }

/-- C7: finalisation follows the Rating Policy. The winner gains 20 rating and
one win; the loser's rating becomes max(0, rating − 15) with one more loss; a
draw changes neither player; and after every rating update each player's level
is floor(rating/200) + 1 with rating still nonnegative. -/
theorem C7_rating_policy (p1id p2id : ℕ) (s1 s2 : ℤ) (u1 u2 : UserRec)
    (hr1 : 0 ≤ u1.rating) (hr2 : 0 ≤ u2.rating) :
    (s2 < s1 →
      (finalize_match p1id p2id s1 s2 u1 u2).player1.rating = u1.rating + 20 ∧
      (finalize_match p1id p2id s1 s2 u1 u2).player1.wins = u1.wins + 1 ∧
      (finalize_match p1id p2id s1 s2 u1 u2).player1.losses = u1.losses ∧
      (finalize_match p1id p2id s1 s2 u1 u2).player2.rating = max 0 (u2.rating - 15) ∧
      (finalize_match p1id p2id s1 s2 u1 u2).player2.losses = u2.losses + 1 ∧
      (finalize_match p1id p2id s1 s2 u1 u2).player2.wins = u2.wins) ∧
    (s1 < s2 →
      (finalize_match p1id p2id s1 s2 u1 u2).player2.rating = u2.rating + 20 ∧
      (finalize_match p1id p2id s1 s2 u1 u2).player2.wins = u2.wins + 1 ∧
      (finalize_match p1id p2id s1 s2 u1 u2).player2.losses = u2.losses ∧
      (finalize_match p1id p2id s1 s2 u1 u2).player1.rating = max 0 (u1.rating - 15) ∧
      (finalize_match p1id p2id s1 s2 u1 u2).player1.losses = u1.losses + 1 ∧
      (finalize_match p1id p2id s1 s2 u1 u2).player1.wins = u1.wins) ∧
    (s1 = s2 →
      (finalize_match p1id p2id s1 s2 u1 u2).player1 = u1 ∧
      (finalize_match p1id p2id s1 s2 u1 u2).player2 = u2) ∧
    (s1 ≠ s2 →
      (finalize_match p1id p2id s1 s2 u1 u2).player1.level =
        Int.fdiv (finalize_match p1id p2id s1 s2 u1 u2).player1.rating 200 + 1 ∧
      (finalize_match p1id p2id s1 s2 u1 u2).player2.level =
        Int.fdiv (finalize_match p1id p2id s1 s2 u1 u2).player2.rating 200 + 1 ∧
      0 ≤ (finalize_match p1id p2id s1 s2 u1 u2).player1.rating ∧
      0 ≤ (finalize_match p1id p2id s1 s2 u1 u2).player2.rating) := by
  refine ⟨fun hgt => ?_, fun hlt => ?_, fun heq => ?_, fun hne => ?_⟩
  · simp [finalize_match, update_rating, hgt, not_lt.mpr (le_of_lt hgt)]
  · simp [finalize_match, update_rating, hlt, not_lt.mpr (le_of_lt hlt)]
  · simp [finalize_match, heq]
  · rcases lt_or_gt_of_ne hne with h | h <;>
      refine ⟨?_, ?_, ?_, ?_⟩ <;>
        simp [finalize_match, update_rating, h, not_lt.mpr (le_of_lt h)] <;>
          linarith [le_max_left (0 : ℤ) (u1.rating - 15),
            le_max_left (0 : ℤ) (u2.rating - 15)]

/-- A user with the model's default rating 1000 at level 6. -/
def baseUser : UserRec := { rating := 1000, level := 6, wins := 0, losses := 0 }

/-- Witness for C7_rating_policy: a 10–5 finish from two 1000-rated users. -/
theorem C7_rating_policy_witness :
    (finalize_match 1 2 10 5 baseUser baseUser).player1.rating = baseUser.rating + 20 ∧
    (finalize_match 1 2 10 5 baseUser baseUser).player2.rating = max 0 (baseUser.rating - 15) :=
  ⟨((C7_rating_policy 1 2 10 5 baseUser baseUser (by norm_num [baseUser])
      (by norm_num [baseUser])).1 (by norm_num)).1,
    (((((C7_rating_policy 1 2 10 5 baseUser baseUser (by norm_num [baseUser])
      (by norm_num [baseUser])).1 (by norm_num)).2).2).2).1⟩

/-- C8: finalisation creates exactly two MatchHistory rows, with symmetric
(userScore, opponentScore) pairs; in the non-draw case the rows carry opposite
isWinner flags, in the draw case both carry isWinner = false and
ratingChange = 0. -/
theorem C8_history_rows (p1id p2id : ℕ) (s1 s2 : ℤ) (u1 u2 : UserRec) :
    (finalize_match p1id p2id s1 s2 u1 u2).history.length = 2 ∧
    ((finalize_match p1id p2id s1 s2 u1 u2).history.getD 0 default).user = p1id ∧
    ((finalize_match p1id p2id s1 s2 u1 u2).history.getD 0 default).user_score = s1 ∧
    ((finalize_match p1id p2id s1 s2 u1 u2).history.getD 0 default).opponent_score = s2 ∧
    ((finalize_match p1id p2id s1 s2 u1 u2).history.getD 1 default).user = p2id ∧
    ((finalize_match p1id p2id s1 s2 u1 u2).history.getD 1 default).user_score = s2 ∧
    ((finalize_match p1id p2id s1 s2 u1 u2).history.getD 1 default).opponent_score = s1 ∧
    (s1 ≠ s2 →
      ((finalize_match p1id p2id s1 s2 u1 u2).history.getD 0 default).is_winner =
        !((finalize_match p1id p2id s1 s2 u1 u2).history.getD 1 default).is_winner) ∧
    (s1 = s2 →
      ((finalize_match p1id p2id s1 s2 u1 u2).history.getD 0 default).is_winner = false ∧
      ((finalize_match p1id p2id s1 s2 u1 u2).history.getD 1 default).is_winner = false ∧
      ((finalize_match p1id p2id s1 s2 u1 u2).history.getD 0 default).rating_change = 0 ∧
      ((finalize_match p1id p2id s1 s2 u1 u2).history.getD 1 default).rating_change = 0) := by
  refine ⟨rfl, ?_, ?_, ?_, ?_, ?_, ?_, fun hne => ?_, fun heq => ?_⟩
  · simp [finalize_match]
  · simp [finalize_match]
  · simp [finalize_match]
  · simp [finalize_match]
  · simp [finalize_match]
  · simp [finalize_match]
  · rcases lt_or_gt_of_ne hne with h | h <;>
      simp [finalize_match, h, not_lt.mpr (le_of_lt h)]
  · simp [finalize_match, heq]

/-- Witness for C8_history_rows: the draw case at 7–7. -/
theorem C8_history_rows_witness :
    (finalize_match 1 2 7 7 baseUser baseUser).history.length = 2 ∧
    ((finalize_match 1 2 7 7 baseUser baseUser).history.getD 0 default).is_winner = false ∧
    ((finalize_match 1 2 7 7 baseUser baseUser).history.getD 0 default).rating_change = 0 :=
  ⟨(C8_history_rows 1 2 7 7 baseUser baseUser).1,
    ((C8_history_rows 1 2 7 7 baseUser baseUser).2.2.2.2.2.2.2.2 rfl).1,
    ((C8_history_rows 1 2 7 7 baseUser baseUser).2.2.2.2.2.2.2.2 rfl).2.2.1⟩

/-- C10: in every non-draw finalisation whose loser has pre-match rating r
with 0 ≤ r < 15, the loser's MatchHistory row records rating_change = −15,
but the rating actually applied is floored at 0, so the real change is −r and
the recorded rating_change differs from newRating − oldRating. Both loser
directions are covered: player2 losing (second history row) and player1
losing (first history row). -/
theorem C10_loser_rating_floor (p1id p2id : ℕ) (s1 s2 : ℤ) (u1 u2 : UserRec) :
    (s2 < s1 → 0 ≤ u2.rating → u2.rating < 15 →
      ((finalize_match p1id p2id s1 s2 u1 u2).history.getD 1 default).rating_change = -15 ∧
      (finalize_match p1id p2id s1 s2 u1 u2).player2.rating = 0 ∧
      (finalize_match p1id p2id s1 s2 u1 u2).player2.rating - u2.rating = -u2.rating ∧
      ((finalize_match p1id p2id s1 s2 u1 u2).history.getD 1 default).rating_change ≠
        (finalize_match p1id p2id s1 s2 u1 u2).player2.rating - u2.rating) ∧
    (s1 < s2 → 0 ≤ u1.rating → u1.rating < 15 →
      ((finalize_match p1id p2id s1 s2 u1 u2).history.getD 0 default).rating_change = -15 ∧
      (finalize_match p1id p2id s1 s2 u1 u2).player1.rating = 0 ∧
      (finalize_match p1id p2id s1 s2 u1 u2).player1.rating - u1.rating = -u1.rating ∧
      ((finalize_match p1id p2id s1 s2 u1 u2).history.getD 0 default).rating_change ≠
        (finalize_match p1id p2id s1 s2 u1 u2).player1.rating - u1.rating) := by
  constructor
  · intro hs h0 h15
    have hmax : max 0 (u2.rating - 15) = 0 := max_eq_left (by linarith)
    refine ⟨?_, ?_, ?_, ?_⟩ <;>
      simp [finalize_match, update_rating, hs, not_lt.mpr (le_of_lt hs), hmax]
    linarith
  · intro hs h0 h15
    have hmax : max 0 (u1.rating - 15) = 0 := max_eq_left (by linarith)
    refine ⟨?_, ?_, ?_, ?_⟩ <;>
      simp [finalize_match, update_rating, hs, not_lt.mpr (le_of_lt hs), hmax]
    linarith

/-- A user whose rating 7 is below the 15-point loss delta. -/
def lowUser : UserRec := { rating := 7, level := 1, wins := 0, losses := 0 }

/-- Witness for C10_loser_rating_floor: a 10–5 loss by player2 at rating 7,
and a 5–10 loss by player1 at rating 7. -/
theorem C10_loser_rating_floor_witness :
    ((finalize_match 1 2 10 5 baseUser lowUser).history.getD 1 default).rating_change = -15 ∧
    (finalize_match 1 2 10 5 baseUser lowUser).player2.rating - lowUser.rating = -lowUser.rating ∧
    ((finalize_match 1 2 5 10 lowUser baseUser).history.getD 0 default).rating_change = -15 ∧
    (finalize_match 1 2 5 10 lowUser baseUser).player1.rating - lowUser.rating = -lowUser.rating :=
  ⟨((C10_loser_rating_floor 1 2 10 5 baseUser lowUser).1 (by norm_num)
      (by norm_num [lowUser]) (by norm_num [lowUser])).1,
    ((C10_loser_rating_floor 1 2 10 5 baseUser lowUser).1 (by norm_num)
      (by norm_num [lowUser]) (by norm_num [lowUser])).2.2.1,
    ((C10_loser_rating_floor 1 2 5 10 lowUser baseUser).2 (by norm_num)
      (by norm_num [lowUser]) (by norm_num [lowUser])).1,
    ((C10_loser_rating_floor 1 2 5 10 lowUser baseUser).2 (by norm_num)
      (by norm_num [lowUser]) (by norm_num [lowUser])).2.2.1⟩

/-- The emoji count stored for a player in `state['emojis_sent']` (0 when the
player has no entry yet). -/
def emojiCount (s : GameState) (u : ℕ) : ℕ :=
  (s.emojis_sent.lookup u).getD 0

/-- `GameConsumer.handle_emoji` from `src/game/consumers.py`: initialise the
player's count to 0 when absent; when the count has reached 5 drop the frame,
otherwise increment the count and broadcast the emoji to the match group.
Returns the new state and whether the frame was broadcast. -/
def handle_emoji (s : GameState) (userId : ℕ) : GameState × Bool :=
  let es :=
    if (s.emojis_sent.lookup userId).isNone then dictSet userId 0 s.emojis_sent
    else s.emojis_sent
  let cnt := (es.lookup userId).getD 0
  if 5 ≤ cnt then ({ s with emojis_sent := es }, false)
  else ({ s with emojis_sent := dictSet userId (cnt + 1) es }, true)

/-- `GameConsumer.emoji_received` from `src/game/consumers.py`: a broadcast
emoji frame is written to a connected player's socket iff that player is not
the sender. -/
def emoji_received_delivers (senderId receiverId : ℕ) : Bool :=
  senderId != receiverId

/-- `n` consecutive emoji frames from one player: resulting state and the
number of frames broadcast to the match group. -/
def send_emojis (s : GameState) (userId : ℕ) : ℕ → GameState × ℕ
  | 0 => (s, 0)
  | n + 1 =>
    let r := handle_emoji s userId
    let rest := send_emojis r.1 userId n
    (rest.1, (if r.2 then 1 else 0) + rest.2)

/-- The number of `emoji_received` frames a given receiver gets out of `n`
frames sent by `senderId`. -/
def frames_received (s : GameState) (senderId receiverId n : ℕ) : ℕ :=
  if emoji_received_delivers senderId receiverId then (send_emojis s senderId n).2
  else 0

theorem handle_emoji_blocked (s : GameState) (u : ℕ) (h : 5 ≤ emojiCount s u) :
    (handle_emoji s u).2 = false ∧ emojiCount (handle_emoji s u).1 u = emojiCount s u := by
  unfold emojiCount at h ⊢
  match hl : s.emojis_sent.lookup u with
  | none => rw [hl] at h; simp at h
  | some v =>
    rw [hl] at h
    simp only [Option.getD_some] at h
    simp [handle_emoji, hl, h]

theorem handle_emoji_sent (s : GameState) (u : ℕ) (h : emojiCount s u < 5) :
    (handle_emoji s u).2 = true ∧
    emojiCount (handle_emoji s u).1 u = emojiCount s u + 1 := by
  unfold emojiCount at h ⊢
  match hl : s.emojis_sent.lookup u with
  | none =>
    simp [handle_emoji, hl, lookup_dictSet_self]
  | some v =>
    rw [hl] at h
    simp only [Option.getD_some] at h
    simp [handle_emoji, hl, not_le.mpr h, lookup_dictSet_self]

theorem send_emojis_count (u n : ℕ) : ∀ s : GameState,
    (send_emojis s u n).2 = min n (5 - emojiCount s u) := by
  induction n with
  | zero => intro s; simp [send_emojis]
  | succ n ih =>
    intro s
    by_cases h : 5 ≤ emojiCount s u
    · obtain ⟨hb, hc⟩ := handle_emoji_blocked s u h
      simp [send_emojis, hb, ih, hc]
      omega
    · push_neg at h
      obtain ⟨hb, hc⟩ := handle_emoji_sent s u h
      simp [send_emojis, hb, ih, hc]
      omega

/-- C9: each player's emojis are forwarded to the other player only and never
echoed back to the sender, and at most 5 of a player's frames are forwarded
per match: a player sending 6 frames from a fresh count gets exactly 5
broadcast, the opponent receives exactly 5 `emoji_received` frames, and the
sender receives none, whatever the number of frames sent. -/
theorem C9_emoji_limit (s : GameState) (u opp : ℕ)
    (h0 : emojiCount s u = 0) (hne : opp ≠ u) :
    (send_emojis s u 6).2 = 5 ∧
    frames_received s u opp 6 = 5 ∧
    (∀ n, frames_received s u u n = 0) := by
  have hcount : (send_emojis s u 6).2 = 5 := by
    rw [send_emojis_count u 6 s, h0]
    omega
  refine ⟨hcount, ?_, fun n => ?_⟩
  · have hd : emoji_received_delivers u opp = true := by
      simp [emoji_received_delivers]
      exact fun he => hne he.symm
    simp [frames_received, hd, hcount]
  · simp [frames_received, emoji_received_delivers]

/-- Witness for C9_emoji_limit: player 7 sends 6 emoji frames of a fresh
match; player 9 receives 5, player 7 receives none. -/
theorem C9_emoji_limit_witness :
    frames_received { } 7 9 6 = 5 ∧ frames_received { } 7 7 6 = 0 :=
  ⟨(C9_emoji_limit { } 7 9 rfl (by norm_num)).2.1,
    (C9_emoji_limit { } 7 9 rfl (by norm_num)).2.2 6⟩

end Quiz
